/-
Verification of the ic-kit canister execution engine
(`ic-kit-runtime/src/canister.rs`).

The engine owns one simulated canister's state and implements the
`Ic0CallHandlerProxy` system-call surface.  This file gives a shallow
embedding of the state the proxy methods touch and of each implemented
proxy method, and proves the specified properties about them.

Modelling conventions:
* Rust `u128` values (cycle amounts) are `Nat`; wrap-around is applied
  explicitly as `% 2 ^ 128` where the source can overflow.
* Rust `i64` parameters are `Int` (constrained to the i64 range in the
  theorems); the source casts `x as u128`, which sign-extends, modelled
  by `sextU128`.
* Raw-pointer reads (`copy_from_canister src size`) become explicit
  `List Nat` byte-list arguments; raw-pointer writes (the `dst` pointer
  of `copy_to_canister`) become byte-list results: the bytes that the
  source would write into canister memory.
* A Rust method `fn f(&mut self, ...) -> Result<T, String>` becomes
  `f : Canister → ... → Canister × CallRes T`, where the first
  component is the post state; `CallRes.trap` models a Rust panic
  (`.expect`), which is distinct from a returned `Err`.
* The `oneshot::Sender<CanisterReply>` channels in `msg_reply_senders`
  are modelled by the list of request ids whose channel is still
  pending together with a `delivered` map recording what was sent on a
  consumed channel.
-/
import Mathlib

namespace ICKit

/-- Entry mode of an invocation, from the spec's data model:
`Init | PreUpgrade | PostUpgrade | InspectMessage | Heartbeat | Update |
Query | CustomTask | ReplyCallback | RejectCallback`. -/
inductive EntryMode where
  | Init
  | PreUpgrade
  | PostUpgrade
  | InspectMessage
  | Heartbeat
  | Update
  | Query
  | CustomTask
  | ReplyCallback
  | RejectCallback
deriving DecidableEq

/-- Modelled from the spec: the execution context `Env` (from the
`types` module, not present in the sources) — an immutable-per-invocation
snapshot of entry mode, raw argument bytes, caller principal, cycles
available, cycles refunded, and the rejection code and message.
The rejection message is kept as its byte list (`as_bytes`), the
rejection code as its numeric (`as i32`) value. -/
structure Env where
  entry_mode : EntryMode
  args : List Nat
  sender : List Nat
  cycles_available : Nat
  cycles_refunded : Nat
  rejection_code : Nat
  rejection_message : List Nat
deriving DecidableEq

/-- Modelled from the spec: `Env::get_entry_point_name` (from the
missing `types` module) — the name of the entry point for the current
entry mode, used in the mode-gating error messages. -/
def Env.get_entry_point_name (e : Env) : String :=
  match e.entry_mode with
  | .Init => "init"
  | .PreUpgrade => "pre_upgrade"
  | .PostUpgrade => "post_upgrade"
  | .InspectMessage => "inspect_message"
  | .Heartbeat => "heartbeat"
  | .Update => "update"
  | .Query => "query"
  | .CustomTask => "custom_task"
  | .ReplyCallback => "reply_callback"
  | .RejectCallback => "reject_callback"

/-- Modelled from the spec: the terminal outcome of one incoming
request, the tagged variant
`Reply{data, cycles_refunded} | Reject{code, message, cycles_refunded}`
(from the missing `types` module).  The rejection code is numeric;
`CanisterReject` is code 4. -/
inductive CanisterReply where
  | Reply (data : List Nat) (cycles_refunded : Nat)
  | Reject (rejection_code : Nat) (rejection_message : List Nat)
      (cycles_refunded : Nat)
deriving DecidableEq

/-- Numeric value of `RejectionCode::CanisterReject`. -/
def canisterRejectCode : Nat := 4

/-- Result of one proxy system call: a returned value, a returned
`Err(String)`, or a Rust panic (from `.expect`), which the source
distinguishes from a returned error. -/
inductive CallRes (α : Type) where
  | ok (a : α)
  | err (msg : String)
  | trap (msg : String)
deriving DecidableEq

/-- Association-list lookup, modelling `HashMap::get`. -/
def alookup {α : Type} (l : List (Nat × α)) (k : Nat) : Option α :=
  (l.find? (fun p => p.1 == k)).map Prod.snd

/-- Association-list removal, modelling `HashMap::remove`'s effect. -/
def aremove {α : Type} (l : List (Nat × α)) (k : Nat) : List (Nat × α) :=
  l.filter (fun p => p.1 != k)

/-- Association-list insertion, modelling `HashMap::insert`. -/
def ainsert {α : Type} (l : List (Nat × α)) (k : Nat) (v : α) :
    List (Nat × α) :=
  (k, v) :: aremove l k

/-- The canister engine state: the fields of `Canister` that the
`Ic0CallHandlerProxy` implementation reads or writes.  The symbol table's
task closures are opaque, so only the registered names are kept.
`msg_reply_senders` holds the ids whose oneshot response channel is
still pending; `delivered` records the `CanisterReply` sent on each
consumed channel.  Thread/channel plumbing fields are not part of the
proxy state. -/
structure Canister where
  canister_id : List Nat
  balance : Nat
  symbol_table : List String
  msg_reply_data : List (Nat × List Nat)
  msg_reply_senders : List Nat
  delivered : List (Nat × CanisterReply)
  cycles_available_store : List (Nat × Nat)
  cycles_accepted : Nat
  env : Env
  request_id : Option Nat
deriving DecidableEq

/-- `with_method`: registers an exported entry point; panics (`none`,
a fatal configuration error) if the name is already in the symbol
table, otherwise inserts it. -/
def with_method (c : Canister) (method_name : String) : Option Canister :=
  if method_name ∈ c.symbol_table then
    none
  else
    some { c with symbol_table := method_name :: c.symbol_table }

/-- `copy_to_canister dst offset size data` minus the raw `dst`
pointer: fails with `Out of bound read.` when `offset + size`
exceeds the data length, otherwise returns the `size` bytes of `data`
starting at `offset` — the bytes the source writes at `dst`. -/
def copy_to_canister (offset size : Nat) (data : List Nat) :
    Except String (List Nat) :=
  if offset + size > data.length then
    .error "Out of bound read."
  else
    .ok ((data.drop offset).take size)

/-- `x as u128` for an `i64` value `x`: Rust sign-extends a signed
integer cast to a wider unsigned type, i.e. takes `x` modulo `2^128`. -/
def sextU128 (x : Int) : Nat := (x % (2 : Int) ^ 128).toNat

/-- The 16 little-endian bytes of a `u128` value (`to_le_bytes`). -/
def toLeBytes16 (n : Nat) : List Nat :=
  (List.range 16).map (fun i => n / 256 ^ i % 256)

/-- The mode-gating error message
`format!("{} can not be called from '{}'", call, env.get_entry_point_name())`. -/
def gateErr (call : String) (e : Env) : String :=
  call ++ " can not be called from \x27" ++ e.get_entry_point_name ++ "\x27"

/-- Mode gate of `msg_arg_data_size`: the entry modes of its first
match arm. -/
def canMsgArgDataSize : EntryMode → Bool
  | .CustomTask | .Init | .Update | .Query | .ReplyCallback
  | .InspectMessage => true
  | _ => false

/-- Mode gate of `msg_arg_data_copy`. -/
def canMsgArgDataCopy : EntryMode → Bool
  | .CustomTask | .Init | .PostUpgrade | .Update | .Query | .ReplyCallback
  | .InspectMessage => true
  | _ => false

/-- Mode gate of `msg_caller_size` and `msg_caller_copy`. -/
def canMsgCaller : EntryMode → Bool
  | .CustomTask | .Init | .PostUpgrade | .PreUpgrade | .Update | .Query
  | .InspectMessage => true
  | _ => false

/-- Mode gate of `msg_reject_code`. -/
def canMsgRejectCode : EntryMode → Bool
  | .CustomTask | .ReplyCallback | .RejectCallback => true
  | _ => false

/-- Mode gate of `msg_reject_msg_size` and `msg_reject_msg_copy`. -/
def canMsgRejectMsg : EntryMode → Bool
  | .CustomTask | .RejectCallback => true
  | _ => false

/-- Mode gate of `msg_reply_data_append`, `msg_reply` and
`msg_reject` (the answering modes). -/
def canMsgReply : EntryMode → Bool
  | .CustomTask | .Update | .Query | .ReplyCallback | .RejectCallback => true
  | _ => false

/-- Mode gate of `msg_cycles_available[128]`, `msg_cycles_accept[128]`
(the cycle-carrying modes). -/
def canMsgCycles : EntryMode → Bool
  | .CustomTask | .Update | .ReplyCallback | .RejectCallback => true
  | _ => false

/-- Mode gate of `msg_cycles_refunded[128]`. -/
def canMsgCyclesRefunded : EntryMode → Bool
  | .CustomTask | .ReplyCallback | .RejectCallback => true
  | _ => false

/-- `msg_arg_data_size`: in a permitted mode, the length of the
current `Env`'s argument buffer. -/
def msg_arg_data_size (c : Canister) : Canister × CallRes Nat :=
  if canMsgArgDataSize c.env.entry_mode then
    (c, .ok c.env.args.length)
  else
    (c, .err (gateErr "msg_arg_data_size" c.env))

/-- `msg_arg_data_copy`: bounds-checked copy out of the current
`Env`'s argument buffer. -/
def msg_arg_data_copy (c : Canister) (offset size : Nat) :
    Canister × CallRes (List Nat) :=
  if canMsgArgDataCopy c.env.entry_mode then
    match copy_to_canister offset size c.env.args with
    | .ok bs => (c, .ok bs)
    | .error e => (c, .err e)
  else
    (c, .err (gateErr "msg_arg_data_copy" c.env))

/-- `msg_caller_size`: the length of the active `Env`'s caller
principal bytes. -/
def msg_caller_size (c : Canister) : Canister × CallRes Nat :=
  if canMsgCaller c.env.entry_mode then
    (c, .ok c.env.sender.length)
  else
    (c, .err (gateErr "msg_caller_size" c.env))

/-- `msg_caller_copy`: bounds-checked copy out of the caller principal
bytes. -/
def msg_caller_copy (c : Canister) (offset size : Nat) :
    Canister × CallRes (List Nat) :=
  if canMsgCaller c.env.entry_mode then
    match copy_to_canister offset size c.env.sender with
    | .ok bs => (c, .ok bs)
    | .error e => (c, .err e)
  else
    (c, .err (gateErr "msg_caller_copy" c.env))

/-- `msg_reject_code`: the rejection code captured in `Env`
(`as i32`). -/
def msg_reject_code (c : Canister) : Canister × CallRes Nat :=
  if canMsgRejectCode c.env.entry_mode then
    (c, .ok c.env.rejection_code)
  else
    (c, .err (gateErr "msg_reject_code" c.env))

/-- `msg_reject_msg_size`: the length of the rejection message
captured in `Env`. -/
def msg_reject_msg_size (c : Canister) : Canister × CallRes Nat :=
  if canMsgRejectMsg c.env.entry_mode then
    (c, .ok c.env.rejection_message.length)
  else
    (c, .err (gateErr "msg_reject_msg_size" c.env))

/-- `msg_reject_msg_copy`: bounds-checked copy out of the rejection
message bytes. -/
def msg_reject_msg_copy (c : Canister) (offset size : Nat) :
    Canister × CallRes (List Nat) :=
  if canMsgRejectMsg c.env.entry_mode then
    match copy_to_canister offset size c.env.rejection_message with
    | .ok bs => (c, .ok bs)
    | .error e => (c, .err e)
  else
    (c, .err (gateErr "msg_reject_msg_copy" c.env))

/-- `msg_reply_data_append src size`: `bytes` is the slice read by
`copy_from_canister src size`.  Mode-gated; panics if `request_id` is
unset; errors if the response channel was already consumed; otherwise
appends to the per-request reply buffer. -/
def msg_reply_data_append (c : Canister) (bytes : List Nat) :
    Canister × CallRes Unit :=
  if canMsgReply c.env.entry_mode then
    match c.request_id with
    | none => (c, .trap "ic-kit: Unexpected canister state, request_id not set.")
    | some message_id =>
      if message_id ∈ c.msg_reply_senders then
        let reply_data := (alookup c.msg_reply_data message_id).getD []
        ({ c with msg_reply_data :=
            ainsert c.msg_reply_data message_id (reply_data ++ bytes) },
          .ok ())
      else
        (c, .err "msg_reply_data_append may only be invoked before canister responses.")
  else
    (c, .err (gateErr "msg_reply_data_append" c.env))

/-- `msg_reply`: mode-gated; panics if `request_id` is unset; errors
if the response channel was already consumed; otherwise removes the
channel, drains the reply buffer, delivers
`CanisterReply::Reply{data, cycles_refunded}` with the current
`cycles_available` as refund, and zeroes `Env.cycles_available`. -/
def msg_reply (c : Canister) : Canister × CallRes Unit :=
  if canMsgReply c.env.entry_mode then
    match c.request_id with
    | none => (c, .trap "ic-kit: Unexpected canister state, request_id not set.")
    | some message_id =>
      if message_id ∈ c.msg_reply_senders then
        let data := (alookup c.msg_reply_data message_id).getD []
        let cycles_refunded := c.env.cycles_available
        ({ c with
            msg_reply_senders := c.msg_reply_senders.filter (· ≠ message_id),
            msg_reply_data := aremove c.msg_reply_data message_id,
            delivered := ainsert c.delivered message_id
              (.Reply data cycles_refunded),
            env := { c.env with cycles_available := 0 } },
          .ok ())
      else
        (c, .err "msg_reply may only be invoked before canister responses.")
  else
    (c, .err (gateErr "msg_reply" c.env))

/-- `msg_reject src size`: `msgBytes` is the rejection-message slice
read by `copy_from_canister src size` (the `from_utf8_lossy`
conversion is the identity on the byte level for valid UTF-8).
Mode-gated; panics if `request_id` is unset; errors if the response
channel was already consumed; otherwise removes the channel, drops the
reply buffer, and delivers `CanisterReply::Reject` with code
`CanisterReject`, the message, and the current `cycles_available` as
refund, then zeroes `Env.cycles_available`. -/
def msg_reject (c : Canister) (msgBytes : List Nat) :
    Canister × CallRes Unit :=
  if canMsgReply c.env.entry_mode then
    match c.request_id with
    | none => (c, .trap "ic-kit: Unexpected canister state, request_id not set.")
    | some message_id =>
      if message_id ∈ c.msg_reply_senders then
        let cycles_refunded := c.env.cycles_available
        ({ c with
            msg_reply_senders := c.msg_reply_senders.filter (· ≠ message_id),
            msg_reply_data := aremove c.msg_reply_data message_id,
            delivered := ainsert c.delivered message_id
              (.Reject canisterRejectCode msgBytes cycles_refunded),
            env := { c.env with cycles_available := 0 } },
          .ok ())
      else
        (c, .err "msg_reject may only be invoked before canister responses.")
  else
    (c, .err (gateErr "msg_reject" c.env))

/-- `msg_cycles_available`: errors when the 128-bit available amount
does not fit in `u64`, otherwise returns it exactly (the source
returns `x as u64 as i64`, a bit-level reinterpretation of the `u64`
value, kept here as the `Nat` it encodes). -/
def msg_cycles_available (c : Canister) : Canister × CallRes Nat :=
  if canMsgCycles c.env.entry_mode then
    if c.env.cycles_available > 2 ^ 64 - 1 then
      (c, .err "available cycles does not fit in u64")
    else
      (c, .ok c.env.cycles_available)
  else
    (c, .err (gateErr "msg_cycles_available" c.env))

/-- `msg_cycles_available128`: writes the 16 little-endian bytes of the
128-bit available amount. -/
def msg_cycles_available128 (c : Canister) :
    Canister × CallRes (List Nat) :=
  if canMsgCycles c.env.entry_mode then
    match copy_to_canister 0 16 (toLeBytes16 c.env.cycles_available) with
    | .ok bs => (c, .ok bs)
    | .error e => (c, .err e)
  else
    (c, .err (gateErr "msg_cycles_available128" c.env))

/-- `msg_cycles_refunded`: errors when the 128-bit refunded amount
does not fit in `u64`, otherwise returns it exactly. -/
def msg_cycles_refunded (c : Canister) : Canister × CallRes Nat :=
  if canMsgCyclesRefunded c.env.entry_mode then
    if c.env.cycles_refunded > 2 ^ 64 - 1 then
      (c, .err "refunded cycles does not fit in u64")
    else
      (c, .ok c.env.cycles_refunded)
  else
    (c, .err (gateErr "msg_cycles_refunded" c.env))

/-- `msg_cycles_refunded128`: writes the 16 little-endian bytes of the
128-bit refunded amount. -/
def msg_cycles_refunded128 (c : Canister) :
    Canister × CallRes (List Nat) :=
  if canMsgCyclesRefunded c.env.entry_mode then
    match copy_to_canister 0 16 (toLeBytes16 c.env.cycles_refunded) with
    | .ok bs => (c, .ok bs)
    | .error e => (c, .err e)
  else
    (c, .err (gateErr "msg_cycles_refunded128" c.env))

/-- `msg_cycles_accept max_amount`: mode-gated; panics if `request_id`
is unset; accepts `min(cycles_available, max_amount as u128)` (note
the sign-extending cast), moves it from available to the accepted
total, snapshots the new available amount under the incoming request
id, and returns the accepted amount `as i64` (its low 64 bits). -/
def msg_cycles_accept (c : Canister) (max_amount : Int) :
    Canister × CallRes Nat :=
  if canMsgCycles c.env.entry_mode then
    match c.request_id with
    | none => (c, .trap "ic-kit: Unexpected canister state, request_id not set.")
    | some message_id =>
      let amount := min c.env.cycles_available (sextU128 max_amount)
      ({ c with
          env := { c.env with
            cycles_available := c.env.cycles_available - amount },
          cycles_accepted := c.cycles_accepted + amount,
          cycles_available_store := ainsert c.cycles_available_store
            message_id (c.env.cycles_available - amount) },
        .ok (amount % 2 ^ 64))
  else
    (c, .err (gateErr "msg_cycles_accept" c.env))

/-- The 128-bit requested amount computed by `msg_cycles_accept128`:
`(max_amount_high as u128) + (max_amount_low as u128) * (u64::MAX as u128 + 1)`
— note the source multiplies the LOW half by `2^64`, with `u128`
wrap-around on the arithmetic. -/
def accept128Amount (max_amount_high max_amount_low : Int) : Nat :=
  (sextU128 max_amount_high + sextU128 max_amount_low * 2 ^ 64) % 2 ^ 128

/-- `msg_cycles_accept128 max_amount_high max_amount_low dst`:
mode-gated; panics if `request_id` is unset; accepts
`min(cycles_available, accept128Amount high low)`, updates the same
state as the 64-bit variant, and writes the accepted amount's 16
little-endian bytes at `dst`. -/
def msg_cycles_accept128 (c : Canister)
    (max_amount_high max_amount_low : Int) :
    Canister × CallRes (List Nat) :=
  if canMsgCycles c.env.entry_mode then
    match c.request_id with
    | none => (c, .trap "ic-kit: Unexpected canister state, request_id not set.")
    | some message_id =>
      let max_amount := accept128Amount max_amount_high max_amount_low
      let amount := min c.env.cycles_available max_amount
      let c1 : Canister :=
        { c with
          env := { c.env with
            cycles_available := c.env.cycles_available - amount },
          cycles_accepted := c.cycles_accepted + amount,
          cycles_available_store := ainsert c.cycles_available_store
            message_id (c.env.cycles_available - amount) }
      match copy_to_canister 0 16 (toLeBytes16 amount) with
      | .ok bs => (c1, .ok bs)
      | .error e => (c1, .err e)
  else
    (c, .err (gateErr "msg_cycles_accept128" c.env))

/-- `canister_self_size`: always valid; the length of the canister's
own principal bytes. -/
def canister_self_size (c : Canister) : Canister × CallRes Nat :=
  (c, .ok c.canister_id.length)

/-- `canister_self_copy`: always valid; bounds-checked copy out of the
canister's own principal bytes. -/
def canister_self_copy (c : Canister) (offset size : Nat) :
    Canister × CallRes (List Nat) :=
  match copy_to_canister offset size c.canister_id with
  | .ok bs => (c, .ok bs)
  | .error e => (c, .err e)

/-- `downcast_panic_payload`'s argument: a `Box<dyn Any + Send>` panic
payload, which is a `&'static str`, an owned `String`, or anything
else. -/
inductive PanicPayload where
  | staticStr (s : String)
  | ownedString (s : String)
  | other
deriving DecidableEq

/-- `downcast_panic_payload`: the payload's string when it is a
`&'static str` or a `String`, otherwise the placeholder `"Box<Any>"`. -/
def downcast_panic_payload : PanicPayload → String
  | .staticStr s => s
  | .ownedString s => s
  | .other => "Box<Any>"

/-- Completion outcome reported by the execution thread for one task. -/
inductive Completion where
  | Ok
  | Panicked (description : String)
deriving DecidableEq

/-- Result of running one task inside `catch_unwind`: normal return,
or a caught panic with its payload. -/
inductive TaskOutcome where
  | ok
  | panicked (payload : PanicPayload)
deriving DecidableEq

/-- The execution-thread loop's translation of a task's outcome into a
completion signal: `Completion::Panicked(downcast_panic_payload(p))`
for a caught panic, `Completion::Ok` otherwise. -/
def completionOf : TaskOutcome → Completion
  | .ok => .Ok
  | .panicked p => .Panicked (downcast_panic_payload p)

/-- A concrete `Env` in the given entry mode, used to instantiate the
universally quantified theorems. -/
def sampleEnv (m : EntryMode) : Env :=
  { entry_mode := m
    args := [1, 2, 3]
    sender := [9, 9]
    cycles_available := 0
    cycles_refunded := 0
    rejection_code := 0
    rejection_message := [104, 105] }

/-- A concrete engine state in the given entry mode, processing
incoming request `0`, whose response channel is still pending. -/
def sampleCanister (m : EntryMode) : Canister :=
  { canister_id := [7]
    balance := 100000000000000
    symbol_table := []
    msg_reply_data := []
    msg_reply_senders := [0]
    delivered := []
    cycles_available_store := []
    cycles_accepted := 0
    env := sampleEnv m
    request_id := some 0 }

/-- The counterexample state for the 64-bit cycle-accept claim:
update mode, `2^64` cycles available on the incoming request. -/
def acceptCx : Canister :=
  { sampleCanister .Update with
    env := { sampleEnv .Update with cycles_available := 2 ^ 64 } }

/-- C5: a bounds-violating copy (`offset + size > data.length`) fails
with the out-of-bound error and copies nothing; an in-bounds copy
returns exactly the `size` bytes of the source starting at `offset`. -/
theorem copy_to_canister_bounds (offset size : Nat) (data : List Nat) :
    (offset + size > data.length →
      copy_to_canister offset size data = .error "Out of bound read.") ∧
    (offset + size ≤ data.length →
      ∃ bs, copy_to_canister offset size data = .ok bs ∧
        bs.length = size ∧
        ∀ i, i < size → bs[i]? = data[offset + i]?) := by
  constructor
  · intro h
    simp [copy_to_canister, h]
  · intro h
    refine ⟨(data.drop offset).take size, ?_, ?_, ?_⟩
    · simp [copy_to_canister]
      omega
    · simp [List.length_take, List.length_drop]
      omega
    · intro i hi
      rw [List.getElem?_take_of_lt hi, List.getElem?_drop]

/-- Witness for C5 at concrete inputs: `offset = 2, size = 3` over a
4-byte buffer fails; `offset = 1, size = 2` over the same buffer
copies bytes 1..3. -/
theorem copy_to_canister_bounds_witness :
    copy_to_canister 2 3 [10, 11, 12, 13] = .error "Out of bound read." ∧
    (∃ bs, copy_to_canister 1 2 [10, 11, 12, 13] = .ok bs ∧
      bs.length = 2 ∧
      ∀ i, i < 2 → bs[i]? = [10, 11, 12, 13][1 + i]?) :=
  ⟨(copy_to_canister_bounds 2 3 [10, 11, 12, 13]).1 (by decide),
   (copy_to_canister_bounds 1 2 [10, 11, 12, 13]).2 (by decide)⟩

/-- C8: registering an exported entry-point name that is already in
the symbol table fails fatally (a panic at configuration time),
while registering a fresh name succeeds and adds it to the table. -/
theorem with_method_duplicate (c : Canister) (name : String) :
    (name ∈ c.symbol_table → with_method c name = none) ∧
    (name ∉ c.symbol_table →
      ∃ c2, with_method c name = some c2 ∧
        c2.symbol_table = name :: c.symbol_table ∧
        name ∈ c2.symbol_table) := by
  constructor
  · intro h
    simp [with_method, h]
  · intro h
    refine ⟨{ c with symbol_table := name :: c.symbol_table }, ?_, rfl, ?_⟩
    · simp [with_method, h]
    · simp

/-- Witness for C8: registering `"canister_update inc"` on a table
already holding it panics; registering it on an empty table adds it. -/
theorem with_method_duplicate_witness :
    with_method
      { sampleCanister .Init with symbol_table := ["canister_update inc"] }
      "canister_update inc" = none ∧
    (∃ c2, with_method (sampleCanister .Init) "canister_update inc" = some c2 ∧
      c2.symbol_table = "canister_update inc" :: (sampleCanister .Init).symbol_table ∧
      "canister_update inc" ∈ c2.symbol_table) :=
  ⟨(with_method_duplicate
      { sampleCanister .Init with symbol_table := ["canister_update inc"] }
      "canister_update inc").1 (by simp),
   (with_method_duplicate (sampleCanister .Init) "canister_update inc").2
      (by simp [sampleCanister])⟩

/-- C9: a caught task fault is reported as a `Panicked` completion,
distinct from `Ok`; the description is the fault payload itself when
that payload is a static string or an owned string, and the fixed
non-empty placeholder `"Box<Any>"` otherwise. -/
theorem panic_payload_reported (p : PanicPayload) (s : String) :
    completionOf (.panicked p) ≠ Completion.Ok ∧
    completionOf .ok = Completion.Ok ∧
    downcast_panic_payload (.staticStr s) = s ∧
    downcast_panic_payload (.ownedString s) = s ∧
    downcast_panic_payload .other = "Box<Any>" ∧
    ("Box<Any>" : String) ≠ "" := by
  refine ⟨?_, rfl, rfl, rfl, rfl, by decide⟩
  simp [completionOf]

theorem alookup_ainsert {α : Type} (l : List (Nat × α)) (k : Nat) (v : α) :
    alookup (ainsert l k v) k = some v := by
  simp [alookup, ainsert, List.find?_cons]

/-- C1: in an answering mode, the first `msg_reply` or `msg_reject`
for the active incoming request identity succeeds and removes that
identity's pending response channel; on a state whose channel is
already consumed, `msg_reply`, `msg_reject` and
`msg_reply_data_append` all return an error and leave the whole engine
state — including the already-delivered `CanisterReply` — unchanged.
Together the two parts give at-most-once delivery: after the first
success the channel is gone, so every subsequent attempt falls into
the second part. -/
theorem reply_at_most_once (c : Canister) (rid : Nat) (bs : List Nat)
    (hm : canMsgReply c.env.entry_mode = true)
    (hr : c.request_id = some rid) :
    (rid ∈ c.msg_reply_senders →
      (msg_reply c).2 = .ok () ∧
      rid ∉ (msg_reply c).1.msg_reply_senders ∧
      (msg_reject c bs).2 = .ok () ∧
      rid ∉ (msg_reject c bs).1.msg_reply_senders ∧
      msg_reply (msg_reply c).1 =
        ((msg_reply c).1,
          .err "msg_reply may only be invoked before canister responses.") ∧
      msg_reject (msg_reply c).1 bs =
        ((msg_reply c).1,
          .err "msg_reject may only be invoked before canister responses.") ∧
      msg_reply_data_append (msg_reply c).1 bs =
        ((msg_reply c).1,
          .err "msg_reply_data_append may only be invoked before canister responses.")) ∧
    (rid ∉ c.msg_reply_senders →
      msg_reply c =
        (c, .err "msg_reply may only be invoked before canister responses.") ∧
      msg_reject c bs =
        (c, .err "msg_reject may only be invoked before canister responses.") ∧
      msg_reply_data_append c bs =
        (c, .err "msg_reply_data_append may only be invoked before canister responses.")) := by
  constructor
  · intro h
    refine ⟨?_, ?_, ?_, ?_, ?_, ?_, ?_⟩ <;>
      simp [msg_reply, msg_reject, msg_reply_data_append, hm, hr, h,
        List.mem_filter]
  · intro h
    refine ⟨?_, ?_, ?_⟩ <;>
      simp [msg_reply, msg_reject, msg_reply_data_append, hm, hr, h]

/-- Witness for C1 at a concrete update-mode state with request `0`
pending. -/
theorem reply_at_most_once_witness :
    (0 ∈ (sampleCanister .Update).msg_reply_senders →
      (msg_reply (sampleCanister .Update)).2 = .ok () ∧
      0 ∉ (msg_reply (sampleCanister .Update)).1.msg_reply_senders ∧
      (msg_reject (sampleCanister .Update) [5]).2 = .ok () ∧
      0 ∉ (msg_reject (sampleCanister .Update) [5]).1.msg_reply_senders ∧
      msg_reply (msg_reply (sampleCanister .Update)).1 =
        ((msg_reply (sampleCanister .Update)).1,
          .err "msg_reply may only be invoked before canister responses.") ∧
      msg_reject (msg_reply (sampleCanister .Update)).1 [5] =
        ((msg_reply (sampleCanister .Update)).1,
          .err "msg_reject may only be invoked before canister responses.") ∧
      msg_reply_data_append (msg_reply (sampleCanister .Update)).1 [5] =
        ((msg_reply (sampleCanister .Update)).1,
          .err "msg_reply_data_append may only be invoked before canister responses.")) ∧
    (0 ∉ (sampleCanister .Update).msg_reply_senders →
      msg_reply (sampleCanister .Update) =
        (sampleCanister .Update,
          .err "msg_reply may only be invoked before canister responses.") ∧
      msg_reject (sampleCanister .Update) [5] =
        (sampleCanister .Update,
          .err "msg_reject may only be invoked before canister responses.") ∧
      msg_reply_data_append (sampleCanister .Update) [5] =
        (sampleCanister .Update,
          .err "msg_reply_data_append may only be invoked before canister responses.")) :=
  reply_at_most_once (sampleCanister .Update) 0 [5] rfl rfl

/-- C4: a successful `msg_reply` delivers `CanisterReply::Reply` whose
data is the accumulated reply buffer for the active request identity
(empty if none) and whose refund is `Env.cycles_available` at the
moment of the reply, then zeroes `Env.cycles_available`; and the
end-to-end query scenario — a handler that copies its `[1, 2, 3]`
argument bytes, appends them and replies — delivers
`Reply{data: [1, 2, 3], cycles_refunded: 0}`. -/
theorem msg_reply_delivers (c : Canister) (rid : Nat)
    (hm : canMsgReply c.env.entry_mode = true)
    (hr : c.request_id = some rid)
    (hp : rid ∈ c.msg_reply_senders) :
    ((msg_reply c).2 = .ok () ∧
      alookup (msg_reply c).1.delivered rid =
        some (.Reply ((alookup c.msg_reply_data rid).getD [])
          c.env.cycles_available) ∧
      (msg_reply c).1.env.cycles_available = 0) ∧
    ((msg_arg_data_copy (sampleCanister .Query) 0 3).2 = .ok [1, 2, 3] ∧
      alookup
        (msg_reply
          (msg_reply_data_append (sampleCanister .Query) [1, 2, 3]).1).1.delivered
        0 = some (.Reply [1, 2, 3] 0)) := by
  constructor
  · refine ⟨?_, ?_, ?_⟩ <;>
      simp [msg_reply, hm, hr, hp, alookup_ainsert]
  · constructor
    · decide
    · decide

/-- Witness for C4 at a concrete update-mode state with request `0`
pending. -/
theorem msg_reply_delivers_witness :
    ((msg_reply (sampleCanister .Update)).2 = .ok () ∧
      alookup (msg_reply (sampleCanister .Update)).1.delivered 0 =
        some (.Reply ((alookup (sampleCanister .Update).msg_reply_data 0).getD [])
          (sampleCanister .Update).env.cycles_available) ∧
      (msg_reply (sampleCanister .Update)).1.env.cycles_available = 0) ∧
    ((msg_arg_data_copy (sampleCanister .Query) 0 3).2 = .ok [1, 2, 3] ∧
      alookup
        (msg_reply
          (msg_reply_data_append (sampleCanister .Query) [1, 2, 3]).1).1.delivered
        0 = some (.Reply [1, 2, 3] 0)) :=
  msg_reply_delivers (sampleCanister .Update) 0 rfl rfl (by decide)

set_option maxRecDepth 8192 in
/-- Counterexample for C2: with `2^64` cycles available, requesting
`u64::MAX` (the `i64` bit pattern `-1`) accepts all `2^64` available
cycles — the sign-extending `max_amount as u128` cast turns the
request into `2^128 - 1` — and the `as i64` return then truncates the
accepted `2^64` to `0`; the claimed `min(m, available) = 2^64 - 1` is
neither accepted nor returned. -/
theorem msg_cycles_accept_sext_counterexample :
    (msg_cycles_accept acceptCx (-1)).2 = .ok 0 ∧
    ((-1 : Int) % 2 ^ 64).toNat = 2 ^ 64 - 1 ∧
    (msg_cycles_accept acceptCx (-1)).1.cycles_accepted = 2 ^ 64 ∧
    (msg_cycles_accept acceptCx (-1)).2 ≠
      .ok (min (((-1 : Int) % 2 ^ 64).toNat) acceptCx.env.cycles_available) := by
  refine ⟨?_, ?_, ?_, ?_⟩ <;> decide

/-- C2 (amended): for requested amounts that are non-negative as a
signed 64-bit value (`0 ≤ m < 2^63`), `msg_cycles_accept` in a
cycle-carrying mode returns exactly `min(m, cycles_available)`,
deducts it from `Env.cycles_available`, adds it to the engine's
`cycles_accepted` total, and stores the resulting available amount
keyed by the active incoming request identity. -/
theorem msg_cycles_accept_min (c : Canister) (m : Int) (rid : Nat)
    (hm : canMsgCycles c.env.entry_mode = true)
    (hr : c.request_id = some rid)
    (h0 : 0 ≤ m) (h1 : m < 2 ^ 63) :
    (msg_cycles_accept c m).2 =
      .ok (min m.toNat c.env.cycles_available) ∧
    (msg_cycles_accept c m).1.env.cycles_available =
      c.env.cycles_available - min m.toNat c.env.cycles_available ∧
    (msg_cycles_accept c m).1.cycles_accepted =
      c.cycles_accepted + min m.toNat c.env.cycles_available ∧
    alookup (msg_cycles_accept c m).1.cycles_available_store rid =
      some ((msg_cycles_accept c m).1.env.cycles_available) := by
  have hlt : m < (2 : Int) ^ 128 := lt_trans h1 (by norm_num)
  have hs : sextU128 m = m.toNat := by
    unfold sextU128
    rw [Int.emod_eq_of_lt h0 hlt]
  have htn : m.toNat < 2 ^ 63 := by
    have h2 : m < ((2 ^ 63 : Nat) : Int) := by exact_mod_cast h1
    exact (Int.toNat_lt h0).mpr h2
  have hamt : min c.env.cycles_available m.toNat % 2 ^ 64 =
      min c.env.cycles_available m.toNat := by
    apply Nat.mod_eq_of_lt
    have hmin := Nat.min_le_right c.env.cycles_available m.toNat
    have h64 : (2 : Nat) ^ 63 < 2 ^ 64 := by norm_num
    omega
  refine ⟨?_, ?_, ?_, ?_⟩ <;>
    simp [msg_cycles_accept, hm, hr, hs, hamt, alookup_ainsert,
      Nat.min_comm]
  all_goals omega

/-- Witness for C2 (amended): update mode, `2^64` cycles available,
requesting `5` accepts `5`. -/
theorem msg_cycles_accept_min_witness :
    (msg_cycles_accept acceptCx 5).2 =
      .ok (min (5 : Int).toNat acceptCx.env.cycles_available) ∧
    (msg_cycles_accept acceptCx 5).1.env.cycles_available =
      acceptCx.env.cycles_available -
        min (5 : Int).toNat acceptCx.env.cycles_available ∧
    (msg_cycles_accept acceptCx 5).1.cycles_accepted =
      acceptCx.cycles_accepted +
        min (5 : Int).toNat acceptCx.env.cycles_available ∧
    alookup (msg_cycles_accept acceptCx 5).1.cycles_available_store 0 =
      some ((msg_cycles_accept acceptCx 5).1.env.cycles_available) :=
  msg_cycles_accept_min acceptCx 5 0 rfl rfl (by decide) (by decide)

set_option maxRecDepth 8192 in
/-- C3: `msg_cycles_accept128` computes the requested amount as
`high + low * 2^64`, i.e. with the halves swapped.  With
`max_amount_high = 1, max_amount_low = 0` and `2^64` cycles available
it accepts `1` cycle, whereas the 128-bit amount the halves encode is
`1 * 2^64 + 0 = 2^64` and the minimum rule shared with the 64-bit
variant demands accepting `2^64`. -/
theorem msg_cycles_accept128_swaps_halves :
    accept128Amount 1 0 = 1 ∧
    (msg_cycles_accept128 acceptCx 1 0).1.cycles_accepted = 1 ∧
    min acceptCx.env.cycles_available (sextU128 1 * 2 ^ 64 + sextU128 0) =
      2 ^ 64 ∧
    (1 : Nat) ≠ 2 ^ 64 := by
  refine ⟨?_, ?_, ?_, ?_⟩ <;> decide

/-- Counterexample for C7: in `ReplyCallback` mode — neither
`RejectCallback` nor `CustomTask` — `msg_reject_code` succeeds
(returning the `Env`'s rejection code) instead of failing. -/
theorem msg_reject_code_in_reply_callback :
    (msg_reject_code (sampleCanister .ReplyCallback)).2 = .ok 0 ∧
    EntryMode.ReplyCallback ≠ EntryMode.RejectCallback ∧
    EntryMode.ReplyCallback ≠ EntryMode.CustomTask ∧
    (msg_reject_code (sampleCanister .ReplyCallback)).2 ≠
      .err (gateErr "msg_reject_code" (sampleCanister .ReplyCallback).env) := by
  refine ⟨?_, ?_, ?_, ?_⟩ <;> decide

/-- C7 (amended): `msg_reject_msg_size` and `msg_reject_msg_copy`
succeed exactly when the entry mode is `RejectCallback` or
`CustomTask` (the copy additionally bounds-checked), while
`msg_reject_code` also succeeds in `ReplyCallback`; on success they
expose the rejection code and rejection message stored in the active
`Env`, and in every other mode they fail with the mode-naming
error. -/
theorem reject_introspection_modes (c : Canister) (offset size : Nat) :
    (canMsgRejectCode c.env.entry_mode = true ↔
      (c.env.entry_mode = .RejectCallback ∨
       c.env.entry_mode = .ReplyCallback ∨
       c.env.entry_mode = .CustomTask)) ∧
    (canMsgRejectMsg c.env.entry_mode = true ↔
      (c.env.entry_mode = .RejectCallback ∨
       c.env.entry_mode = .CustomTask)) ∧
    (canMsgRejectCode c.env.entry_mode = true →
      msg_reject_code c = (c, .ok c.env.rejection_code)) ∧
    (canMsgRejectCode c.env.entry_mode = false →
      msg_reject_code c = (c, .err (gateErr "msg_reject_code" c.env))) ∧
    (canMsgRejectMsg c.env.entry_mode = true →
      msg_reject_msg_size c = (c, .ok c.env.rejection_message.length)) ∧
    (canMsgRejectMsg c.env.entry_mode = false →
      msg_reject_msg_size c = (c, .err (gateErr "msg_reject_msg_size" c.env))) ∧
    (canMsgRejectMsg c.env.entry_mode = true →
      offset + size ≤ c.env.rejection_message.length →
      msg_reject_msg_copy c offset size =
        (c, .ok ((c.env.rejection_message.drop offset).take size))) ∧
    (canMsgRejectMsg c.env.entry_mode = false →
      msg_reject_msg_copy c offset size =
        (c, .err (gateErr "msg_reject_msg_copy" c.env))) := by
  refine ⟨?_, ?_, ?_, ?_, ?_, ?_, ?_, ?_⟩
  · cases hm : c.env.entry_mode <;> simp [canMsgRejectCode]
  · cases hm : c.env.entry_mode <;> simp [canMsgRejectMsg]
  · intro h
    simp [msg_reject_code, h]
  · intro h
    simp [msg_reject_code, h]
  · intro h
    simp [msg_reject_msg_size, h]
  · intro h
    simp [msg_reject_msg_size, h]
  · intro h hb
    have hnb : ¬ (offset + size > c.env.rejection_message.length) := by omega
    simp [msg_reject_msg_copy, h, copy_to_canister, hnb]
  · intro h
    simp [msg_reject_msg_copy, h]

/-- Witness for C7 (amended) in `RejectCallback` mode: the code, the
message length, and an in-bounds copy of the stored message. -/
theorem reject_introspection_modes_witness :
    msg_reject_code (sampleCanister .RejectCallback) =
      (sampleCanister .RejectCallback, .ok 0) ∧
    msg_reject_msg_size (sampleCanister .RejectCallback) =
      (sampleCanister .RejectCallback, .ok 2) ∧
    msg_reject_msg_copy (sampleCanister .RejectCallback) 0 2 =
      (sampleCanister .RejectCallback, .ok [104, 105]) :=
  ⟨(reject_introspection_modes (sampleCanister .RejectCallback) 0 2).2.2.1 rfl,
   (reject_introspection_modes (sampleCanister .RejectCallback) 0 2).2.2.2.2.1 rfl,
   (reject_introspection_modes (sampleCanister .RejectCallback) 0 2).2.2.2.2.2.2.1
     rfl (by decide)⟩

/-- C10: in a permitted mode, the 64-bit getters `msg_cycles_available`
and `msg_cycles_refunded` return an error (leaving the state
unchanged) whenever the 128-bit value exceeds `u64::MAX = 2^64 - 1`,
and otherwise return the exact value. -/
theorem cycles_getters_no_truncation (c : Canister) :
    (canMsgCycles c.env.entry_mode = true →
      (c.env.cycles_available > 2 ^ 64 - 1 →
        msg_cycles_available c =
          (c, .err "available cycles does not fit in u64")) ∧
      (c.env.cycles_available ≤ 2 ^ 64 - 1 →
        msg_cycles_available c = (c, .ok c.env.cycles_available))) ∧
    (canMsgCyclesRefunded c.env.entry_mode = true →
      (c.env.cycles_refunded > 2 ^ 64 - 1 →
        msg_cycles_refunded c =
          (c, .err "refunded cycles does not fit in u64")) ∧
      (c.env.cycles_refunded ≤ 2 ^ 64 - 1 →
        msg_cycles_refunded c = (c, .ok c.env.cycles_refunded))) := by
  constructor
  · intro hm
    constructor
    · intro h
      have h2 : c.env.cycles_available > 18446744073709551615 := by omega
      simp [msg_cycles_available, hm, h2]
    · intro h
      have hnb : ¬ (c.env.cycles_available > 18446744073709551615) := by omega
      simp [msg_cycles_available, hm, hnb]
  · intro hm
    constructor
    · intro h
      have h2 : c.env.cycles_refunded > 18446744073709551615 := by omega
      simp [msg_cycles_refunded, hm, h2]
    · intro h
      have hnb : ¬ (c.env.cycles_refunded > 18446744073709551615) := by omega
      simp [msg_cycles_refunded, hm, hnb]

/-- Witness for C10: with `2^64` available cycles the 64-bit getter
errors; with `0` available it returns `0`; the refunded getter in a
reply callback returns `0`. -/
theorem cycles_getters_no_truncation_witness :
    msg_cycles_available acceptCx =
      (acceptCx, .err "available cycles does not fit in u64") ∧
    msg_cycles_available (sampleCanister .Update) =
      (sampleCanister .Update, .ok (sampleCanister .Update).env.cycles_available) ∧
    msg_cycles_refunded (sampleCanister .ReplyCallback) =
      (sampleCanister .ReplyCallback,
        .ok (sampleCanister .ReplyCallback).env.cycles_refunded) :=
  ⟨((cycles_getters_no_truncation acceptCx).1 rfl).1 (by decide),
   ((cycles_getters_no_truncation (sampleCanister .Update)).1 rfl).2 (by decide),
   ((cycles_getters_no_truncation (sampleCanister .ReplyCallback)).2 rfl).2
     (by decide)⟩

/-- C6: every implemented mode-gated system call of the proxy, invoked
in an entry mode its gate does not permit, returns the error built
from the call's name and the current entry mode's entry-point name,
and leaves the entire engine state unchanged. -/
theorem mode_gating (c : Canister) (offset size : Nat) (bs : List Nat)
    (m hi lo : Int) :
    (canMsgArgDataSize c.env.entry_mode = false →
      msg_arg_data_size c = (c, .err (gateErr "msg_arg_data_size" c.env))) ∧
    (canMsgArgDataCopy c.env.entry_mode = false →
      msg_arg_data_copy c offset size =
        (c, .err (gateErr "msg_arg_data_copy" c.env))) ∧
    (canMsgCaller c.env.entry_mode = false →
      msg_caller_size c = (c, .err (gateErr "msg_caller_size" c.env))) ∧
    (canMsgCaller c.env.entry_mode = false →
      msg_caller_copy c offset size =
        (c, .err (gateErr "msg_caller_copy" c.env))) ∧
    (canMsgRejectCode c.env.entry_mode = false →
      msg_reject_code c = (c, .err (gateErr "msg_reject_code" c.env))) ∧
    (canMsgRejectMsg c.env.entry_mode = false →
      msg_reject_msg_size c =
        (c, .err (gateErr "msg_reject_msg_size" c.env))) ∧
    (canMsgRejectMsg c.env.entry_mode = false →
      msg_reject_msg_copy c offset size =
        (c, .err (gateErr "msg_reject_msg_copy" c.env))) ∧
    (canMsgReply c.env.entry_mode = false →
      msg_reply_data_append c bs =
        (c, .err (gateErr "msg_reply_data_append" c.env))) ∧
    (canMsgReply c.env.entry_mode = false →
      msg_reply c = (c, .err (gateErr "msg_reply" c.env))) ∧
    (canMsgReply c.env.entry_mode = false →
      msg_reject c bs = (c, .err (gateErr "msg_reject" c.env))) ∧
    (canMsgCycles c.env.entry_mode = false →
      msg_cycles_available c =
        (c, .err (gateErr "msg_cycles_available" c.env))) ∧
    (canMsgCycles c.env.entry_mode = false →
      msg_cycles_available128 c =
        (c, .err (gateErr "msg_cycles_available128" c.env))) ∧
    (canMsgCyclesRefunded c.env.entry_mode = false →
      msg_cycles_refunded c =
        (c, .err (gateErr "msg_cycles_refunded" c.env))) ∧
    (canMsgCyclesRefunded c.env.entry_mode = false →
      msg_cycles_refunded128 c =
        (c, .err (gateErr "msg_cycles_refunded128" c.env))) ∧
    (canMsgCycles c.env.entry_mode = false →
      msg_cycles_accept c m =
        (c, .err (gateErr "msg_cycles_accept" c.env))) ∧
    (canMsgCycles c.env.entry_mode = false →
      msg_cycles_accept128 c hi lo =
        (c, .err (gateErr "msg_cycles_accept128" c.env))) := by
  refine ⟨?_, ?_, ?_, ?_, ?_, ?_, ?_, ?_, ?_, ?_, ?_, ?_, ?_, ?_, ?_, ?_⟩ <;>
    intro h <;>
    simp [msg_arg_data_size, msg_arg_data_copy, msg_caller_size,
      msg_caller_copy, msg_reject_code, msg_reject_msg_size,
      msg_reject_msg_copy, msg_reply_data_append, msg_reply, msg_reject,
      msg_cycles_available, msg_cycles_available128, msg_cycles_refunded,
      msg_cycles_refunded128, msg_cycles_accept, msg_cycles_accept128, h]

/-- Witness for C6: all sixteen mode-gated calls fail with the
mode-naming error in `Heartbeat` mode, leaving the state unchanged. -/
theorem mode_gating_witness :
    msg_arg_data_size (sampleCanister .Heartbeat) =
      (sampleCanister .Heartbeat,
        .err (gateErr "msg_arg_data_size" (sampleCanister .Heartbeat).env)) ∧
    msg_arg_data_copy (sampleCanister .Heartbeat) 0 1 =
      (sampleCanister .Heartbeat,
        .err (gateErr "msg_arg_data_copy" (sampleCanister .Heartbeat).env)) ∧
    msg_caller_size (sampleCanister .Heartbeat) =
      (sampleCanister .Heartbeat,
        .err (gateErr "msg_caller_size" (sampleCanister .Heartbeat).env)) ∧
    msg_caller_copy (sampleCanister .Heartbeat) 0 1 =
      (sampleCanister .Heartbeat,
        .err (gateErr "msg_caller_copy" (sampleCanister .Heartbeat).env)) ∧
    msg_reject_code (sampleCanister .Heartbeat) =
      (sampleCanister .Heartbeat,
        .err (gateErr "msg_reject_code" (sampleCanister .Heartbeat).env)) ∧
    msg_reject_msg_size (sampleCanister .Heartbeat) =
      (sampleCanister .Heartbeat,
        .err (gateErr "msg_reject_msg_size" (sampleCanister .Heartbeat).env)) ∧
    msg_reject_msg_copy (sampleCanister .Heartbeat) 0 1 =
      (sampleCanister .Heartbeat,
        .err (gateErr "msg_reject_msg_copy" (sampleCanister .Heartbeat).env)) ∧
    msg_reply_data_append (sampleCanister .Heartbeat) [5] =
      (sampleCanister .Heartbeat,
        .err (gateErr "msg_reply_data_append" (sampleCanister .Heartbeat).env)) ∧
    msg_reply (sampleCanister .Heartbeat) =
      (sampleCanister .Heartbeat,
        .err (gateErr "msg_reply" (sampleCanister .Heartbeat).env)) ∧
    msg_reject (sampleCanister .Heartbeat) [5] =
      (sampleCanister .Heartbeat,
        .err (gateErr "msg_reject" (sampleCanister .Heartbeat).env)) ∧
    msg_cycles_available (sampleCanister .Heartbeat) =
      (sampleCanister .Heartbeat,
        .err (gateErr "msg_cycles_available" (sampleCanister .Heartbeat).env)) ∧
    msg_cycles_available128 (sampleCanister .Heartbeat) =
      (sampleCanister .Heartbeat,
        .err (gateErr "msg_cycles_available128" (sampleCanister .Heartbeat).env)) ∧
    msg_cycles_refunded (sampleCanister .Heartbeat) =
      (sampleCanister .Heartbeat,
        .err (gateErr "msg_cycles_refunded" (sampleCanister .Heartbeat).env)) ∧
    msg_cycles_refunded128 (sampleCanister .Heartbeat) =
      (sampleCanister .Heartbeat,
        .err (gateErr "msg_cycles_refunded128" (sampleCanister .Heartbeat).env)) ∧
    msg_cycles_accept (sampleCanister .Heartbeat) 5 =
      (sampleCanister .Heartbeat,
        .err (gateErr "msg_cycles_accept" (sampleCanister .Heartbeat).env)) ∧
    msg_cycles_accept128 (sampleCanister .Heartbeat) 1 0 =
      (sampleCanister .Heartbeat,
        .err (gateErr "msg_cycles_accept128" (sampleCanister .Heartbeat).env)) := by
  have h := mode_gating (sampleCanister .Heartbeat) 0 1 [5] 5 1 0
  exact ⟨h.1 rfl, h.2.1 rfl, h.2.2.1 rfl, h.2.2.2.1 rfl, h.2.2.2.2.1 rfl,
    h.2.2.2.2.2.1 rfl, h.2.2.2.2.2.2.1 rfl, h.2.2.2.2.2.2.2.1 rfl,
    h.2.2.2.2.2.2.2.2.1 rfl, h.2.2.2.2.2.2.2.2.2.1 rfl,
    h.2.2.2.2.2.2.2.2.2.2.1 rfl, h.2.2.2.2.2.2.2.2.2.2.2.1 rfl,
    h.2.2.2.2.2.2.2.2.2.2.2.2.1 rfl, h.2.2.2.2.2.2.2.2.2.2.2.2.2.1 rfl,
    h.2.2.2.2.2.2.2.2.2.2.2.2.2.2.1 rfl,
    h.2.2.2.2.2.2.2.2.2.2.2.2.2.2.2 rfl⟩

end ICKit
